import Mathlib

/-!
A shallow embedding of the media volume amplification content script
(src/src/js/scripts.js).

JavaScript numbers are modelled as rationals (`ℚ`); the result of the
`Number()` coercion is `Option ℚ`, with `none` standing for NaN.
DOM / WebExtension side effects (storage writes, background
notifications, gain-node mutations, `applyVolumeToElement` invocations,
"play"-listener registrations, message responses) are recorded in an
explicit `Effects` trace, and the script's mutable state
(`currentVolume`, `elementGainNodes`, `processedElements`) in an
`EngineState` record.  The host environment (whether the `browser`
global is defined, whether `new AudioContext()` succeeds, which elements
make `createMediaElementSource` throw) is a fixed `Env` record.
-/

namespace SoundVolume

/-- A JavaScript primitive value as it can appear in the `soundVolume`
field of a message payload.  `num q` is a (non-NaN) number; NaN only
arises in the script through string coercion, which `toNumber` models. -/
inductive JSValue where
  | num (q : ℚ)
  | str (s : String)
  | bool (b : Bool)
  | null
deriving DecidableEq

/-- Whitespace for the purpose of `Number()` string trimming. -/
def jsWhitespace (c : Char) : Bool :=
  c == ' ' || c == '\t' || c == '\n' || c == '\r'

/-- Trim leading and trailing whitespace from a character list. -/
def trimChars (cs : List Char) : List Char :=
  ((cs.dropWhile jsWhitespace).reverse.dropWhile jsWhitespace).reverse

/-- Value of a digit string, most significant digit first. -/
def digitsToNat (cs : List Char) : Nat :=
  cs.foldl (fun acc c => acc * 10 + (c.toNat - 48)) 0

/-- Parse a non-empty all-digit character list. -/
def parseDigits (cs : List Char) : Option ℚ :=
  if cs ≠ [] ∧ cs.all Char.isDigit = true then some ((digitsToNat cs : ℚ)) else none

/-- Modelled fragment of the JavaScript `Number()` string coercion:
an empty or whitespace-only string coerces to `0`, an optionally signed
decimal integer numeral to its value, and every other string to NaN
(`none`).  This is exactly what `Number()` does on that fragment. -/
def jsStringToNumber (s : String) : Option ℚ :=
  match trimChars s.data with
  | [] => some 0
  | '-' :: rest => (parseDigits rest).map (fun q => -q)
  | '+' :: rest => parseDigits rest
  | cs => parseDigits cs

/-- The JavaScript `Number()` coercion on primitive values: numbers pass
through, strings via `jsStringToNumber`, booleans to 0/1, null to 0;
`none` is NaN. -/
def toNumber : JSValue → Option ℚ
  | .num q => some q
  | .str s => jsStringToNumber s
  | .bool b => some (if b then 1 else 0)
  | .null => some 0

/-- Hosts where the script must not touch media sources
(`IGNORED_HOSTS` in scripts.js). -/
def IGNORED_HOSTS : List String :=
  ["cdn.videofarm.daum.net", "computerbase.de", "production.assets.clips.twitchcdn.net"]

/-- JavaScript `s.includes(pat)`: substring containment of `pat` in `s`. -/
def jsIncludes (s pat : String) : Bool :=
  decide (pat.data <:+: s.data)

/-- `isIgnoredHost(url)` from scripts.js.  The argument is `none` when
the JavaScript value is `undefined`; `!url` is true exactly for
`undefined` and the empty string. -/
def isIgnoredHost : Option String → Bool
  | none => false
  | some url => if url = "" then false else IGNORED_HOSTS.any (fun host => jsIncludes url host)

/-- JavaScript `a || b` on strings (the empty string is falsy). -/
def jsOr (a b : String) : String :=
  if a = "" then b else a

/-- One discovered media element of the document.  `id` is the identity
used to key the `elementGainNodes` WeakMap and the `processedElements`
WeakSet; `src`/`currentSrc` are its source fields (empty string when
unset), `paused` its playback state. -/
structure MediaElement where
  id : Nat
  src : String
  currentSrc : String
  paused : Bool
deriving DecidableEq

/-- `mediaElement.src || mediaElement.currentSrc` from scripts.js. -/
def effectiveSrc (e : MediaElement) : String :=
  jsOr e.src e.currentSrc

/-- The per-element record stored in `elementGainNodes`: either a ready
audio graph whose gain node currently holds `gain` (a fresh gain node
holds 1), or the permanent failure marker `{ failed: true }`. -/
inductive Entry where
  | ready (gain : ℚ)
  | failed
deriving DecidableEq

/-- Lookup in the association list modelling the `elementGainNodes`
WeakMap. -/
def mapGet (m : List (Nat × Entry)) (k : Nat) : Option Entry :=
  match m with
  | [] => none
  | (k', v) :: rest => if k' = k then some v else mapGet rest k

/-- `WeakMap.set`: replace the entry for `k`, or append it. -/
def mapSet (m : List (Nat × Entry)) (k : Nat) (v : Entry) : List (Nat × Entry) :=
  match m with
  | [] => [(k, v)]
  | (k', v') :: rest => if k' = k then (k, v) :: rest else (k', v') :: mapSet rest k v

/-- The script's mutable state: the `currentVolume` global, the
`elementGainNodes` WeakMap and the `processedElements` WeakSet. -/
structure EngineState where
  currentVolume : ℚ
  gainNodes : List (Nat × Entry)
  processed : List Nat
deriving DecidableEq

/-- The fixed host environment: whether the `browser` global is defined
(Firefox path), whether `new AudioContext()` succeeds, and the set of
element ids for which `createMediaElementSource` throws (CORS/DRM). -/
structure Env where
  browserDefined : Bool
  ctxOk : Bool
  connectFails : List Nat
deriving DecidableEq

/-- Trace of the observable side effects of one operation:
`writes` = values written to `storage.local` (`savedVolume`),
`notifs` = volumes sent to the background script,
`gainSets` = actual gain-stage mutations `(element id, new gain value)`,
`applyCalls` = invocations of `applyVolumeToElement` (element id),
`listeners` = "play" event-listener registrations (element id),
`responses` = `sendResponse({soundVolume: v})` payloads. -/
structure Effects where
  writes : List ℚ := []
  notifs : List ℚ := []
  gainSets : List (Nat × ℚ) := []
  applyCalls : List Nat := []
  listeners : List Nat := []
  responses : List ℚ := []
deriving DecidableEq

/-- Concatenation of effect traces, in execution order. -/
def Effects.app (a b : Effects) : Effects :=
  ⟨a.writes ++ b.writes, a.notifs ++ b.notifs, a.gainSets ++ b.gainSets,
   a.applyCalls ++ b.applyCalls, a.listeners ++ b.listeners, a.responses ++ b.responses⟩

instance : Append Effects := ⟨Effects.app⟩

/-- `loadSavedVolume()` from scripts.js.  `stored` is the value found
under the `savedVolume` key (`none` when absent, in which case the
`storage.local.get` default `100` applies); `readErr` covers both
`runtime.lastError` and a thrown exception.  Returns the resulting
`currentVolume`.  Note: the value is only checked with `isNaN`, not
range-checked. -/
def loadSavedVolume (stored : Option JSValue) (readErr : Bool) : ℚ :=
  if readErr then 100
  else
    match toNumber (stored.getD (.num 100)) with
    | none => 100
    | some v => v

/-- `saveVolume(volume)` from scripts.js, as the effect trace it
produces: the storage write happens only when the (already numeric)
volume lies in `[0, 600]`. -/
def saveVolume (volume : ℚ) : Effects :=
  if 0 ≤ volume ∧ volume ≤ 600 then { writes := [volume] } else {}

/-- `sendToBackground('changeSoundVolume')` from scripts.js: always
sends the current volume; delivery errors are swallowed. -/
def sendToBackground (currentVolume : ℚ) : Effects :=
  { notifs := [currentVolume] }

/-- `setupAudioContext(mediaElement)` from scripts.js.  Returns the
entry handed back to the caller (`none` models returning `null`)
together with the updated state. -/
def setupAudioContext (env : Env) (e : MediaElement) (st : EngineState) :
    Option Entry × EngineState :=
  match mapGet st.gainNodes e.id with
  | some entry => (some entry, st)
  | none =>
    let src := effectiveSrc e
    if src = "" ∨ isIgnoredHost (some src) = true then (none, st)
    else if env.ctxOk = false then
      (none, { st with gainNodes := mapSet st.gainNodes e.id .failed })
    else if e.id ∈ env.connectFails then
      (none, { st with gainNodes := mapSet st.gainNodes e.id .failed })
    else
      (some (.ready 1), { st with gainNodes := mapSet st.gainNodes e.id (.ready 1) })

/-- `applyVolumeToElement(mediaElement, volume)` from scripts.js.
Returns the boolean result, the updated state, and the effect trace
(the call itself is recorded in `applyCalls`; an actual gain-stage
mutation additionally in `gainSets`). -/
def applyVolumeToElement (env : Env) (e : MediaElement) (volume : ℚ) (st : EngineState) :
    Bool × EngineState × Effects :=
  let r := setupAudioContext env e st
  match r.1 with
  | none => (false, r.2, { applyCalls := [e.id] })
  | some .failed => (false, r.2, { applyCalls := [e.id] })
  | some (.ready g) =>
    let gainValue := volume / 100
    if g = gainValue then (true, r.2, { applyCalls := [e.id] })
    else
      (true, { r.2 with gainNodes := mapSet r.2.gainNodes e.id (.ready gainValue) },
       { gainSets := [(e.id, gainValue)], applyCalls := [e.id] })

/-- `processMediaElement(element)` from scripts.js: once per element,
register the "play" listener and, if the element is already playing and
the `browser` global is defined, apply the current volume. -/
def processMediaElement (env : Env) (e : MediaElement) (st : EngineState) :
    EngineState × Effects :=
  if e.id ∈ st.processed then (st, {})
  else
    let st1 : EngineState := { st with processed := e.id :: st.processed }
    if e.paused = false ∧ env.browserDefined = true then
      let r := applyVolumeToElement env e st1.currentVolume st1
      (r.2.1, Effects.app { listeners := [e.id] } r.2.2)
    else (st1, { listeners := [e.id] })

/-- The body of the `mediaElements.forEach` loop in
`changeSoundVolume()`. -/
def applyStep (env : Env) (acc : EngineState × Effects) (e : MediaElement) :
    EngineState × Effects :=
  let p := processMediaElement env e acc.1
  let src := effectiveSrc e
  if src ≠ "" ∧ isIgnoredHost (some src) = false then
    let r := applyVolumeToElement env e p.1.currentVolume p.1
    (r.2.1, Effects.app acc.2 (Effects.app p.2 r.2.2))
  else (p.1, Effects.app acc.2 p.2)

/-- `changeSoundVolume()` from scripts.js: save, notify the background
script, and — only when the `browser` global is defined — process and
apply the volume to every media element of the document. -/
def changeSoundVolume (env : Env) (doc : List MediaElement) (st : EngineState) :
    EngineState × Effects :=
  let base : EngineState × Effects :=
    (st, Effects.app (saveVolume st.currentVolume) (sendToBackground st.currentVolume))
  if env.browserDefined = true then List.foldl (applyStep env) base doc else base

/-- An incoming runtime message.  The outer `Option` is the
`request.data &&` truthiness guard (`none` = no data object), the inner
`Option` the `soundVolume !== undefined` guard. -/
structure Request where
  action : String
  data : Option (Option JSValue)
deriving DecidableEq

/-- The volume-update block of the `changeSoundVolume` branch of
`handleMessage`: validate the payload with `Number`/`isNaN` and the
`[0, 600]` range check, and on success update `currentVolume` and run
`changeSoundVolume()`. -/
def handleSetVolume (env : Env) (doc : List MediaElement) (st : EngineState)
    (data : Option (Option JSValue)) : EngineState × Effects :=
  match data with
  | some (some v) =>
    match toNumber v with
    | some n =>
      if 0 ≤ n ∧ n ≤ 600 then changeSoundVolume env doc { st with currentVolume := n }
      else (st, {})
    | none => (st, {})
  | _ => (st, {})

/-- `handleMessage(request, sender, sendResponse)` from scripts.js.
Returns the updated state and the effect trace (the `sendResponse`
payloads appear in `responses`). -/
def handleMessage (env : Env) (doc : List MediaElement) (st : EngineState) (req : Request) :
    EngineState × Effects :=
  if req.action = "changeSoundVolume" then
    let inner : EngineState × Effects := handleSetVolume env doc st req.data
    (inner.1, Effects.app inner.2 { responses := [inner.1.currentVolume] })
  else if req.action = "getSoundVolume" then
    (st, { responses := [st.currentVolume] })
  else (st, {})

/-! ### Basic lemmas about the map and effect-trace primitives -/

@[simp] lemma mapGet_mapSet_self (m : List (Nat × Entry)) (k : Nat) (v : Entry) :
    mapGet (mapSet m k v) k = some v := by
  induction m with
  | nil => simp [mapGet, mapSet]
  | cons p rest ih =>
    obtain ⟨k', v'⟩ := p
    by_cases h : k' = k <;> simp [mapGet, mapSet, h, ih]

lemma mapGet_mapSet_ne (m : List (Nat × Entry)) (k j : Nat) (v : Entry) (h : j ≠ k) :
    mapGet (mapSet m k v) j = mapGet m j := by
  have h' : ¬(k = j) := fun hh => h hh.symm
  induction m with
  | nil => simp [mapGet, mapSet, h']
  | cons p rest ih =>
    obtain ⟨k', v'⟩ := p
    by_cases hk : k' = k
    · subst hk
      simp [mapGet, mapSet, h']
    · simp [mapGet, mapSet, hk, ih]

@[simp] lemma app_writes (a b : Effects) : (Effects.app a b).writes = a.writes ++ b.writes := rfl

@[simp] lemma app_notifs (a b : Effects) : (Effects.app a b).notifs = a.notifs ++ b.notifs := rfl

@[simp] lemma app_gainSets (a b : Effects) :
    (Effects.app a b).gainSets = a.gainSets ++ b.gainSets := rfl

@[simp] lemma app_applyCalls (a b : Effects) :
    (Effects.app a b).applyCalls = a.applyCalls ++ b.applyCalls := rfl

@[simp] lemma app_listeners (a b : Effects) :
    (Effects.app a b).listeners = a.listeners ++ b.listeners := rfl

@[simp] lemma app_responses (a b : Effects) :
    (Effects.app a b).responses = a.responses ++ b.responses := rfl

/-! ### Lemmas about `setupAudioContext` -/

lemma setup_existing (env : Env) (e : MediaElement) (st : EngineState) (entry : Entry)
    (h : mapGet st.gainNodes e.id = some entry) :
    setupAudioContext env e st = (some entry, st) := by
  unfold setupAudioContext
  rw [h]

lemma setup_bad (env : Env) (e : MediaElement) (st : EngineState)
    (h : mapGet st.gainNodes e.id = none)
    (hbad : effectiveSrc e = "" ∨ isIgnoredHost (some (effectiveSrc e)) = true) :
    setupAudioContext env e st = (none, st) := by
  unfold setupAudioContext
  rw [h]
  simp only [if_pos hbad]

lemma setup_cv (env : Env) (e : MediaElement) (st : EngineState) :
    (setupAudioContext env e st).2.currentVolume = st.currentVolume := by
  unfold setupAudioContext
  cases h : mapGet st.gainNodes e.id with
  | some entry => rfl
  | none =>
    dsimp only
    split
    · rfl
    · split
      · rfl
      · split <;> rfl

lemma setup_processed (env : Env) (e : MediaElement) (st : EngineState) :
    (setupAudioContext env e st).2.processed = st.processed := by
  unfold setupAudioContext
  cases h : mapGet st.gainNodes e.id with
  | some entry => rfl
  | none =>
    dsimp only
    split
    · rfl
    · split
      · rfl
      · split <;> rfl

lemma setup_gainNodes_ne (env : Env) (e : MediaElement) (st : EngineState) (j : Nat)
    (hj : j ≠ e.id) :
    mapGet (setupAudioContext env e st).2.gainNodes j = mapGet st.gainNodes j := by
  unfold setupAudioContext
  cases h : mapGet st.gainNodes e.id with
  | some entry => rfl
  | none =>
    dsimp only
    split
    · rfl
    · split
      · simp [mapGet_mapSet_ne _ _ _ _ hj]
      · split <;> simp [mapGet_mapSet_ne _ _ _ _ hj]

lemma setup_pres_failed (env : Env) (e : MediaElement) (st : EngineState) (j : Nat)
    (h : mapGet st.gainNodes j = some .failed) :
    mapGet (setupAudioContext env e st).2.gainNodes j = some .failed := by
  by_cases hj : j = e.id
  · subst hj
    rw [setup_existing env e st .failed h]
    exact h
  · rw [setup_gainNodes_ne env e st j hj]
    exact h

/-! ### Lemmas about `applyVolumeToElement` -/

lemma apply_failedEntry (env : Env) (e : MediaElement) (v : ℚ) (st : EngineState)
    (h : mapGet st.gainNodes e.id = some .failed) :
    applyVolumeToElement env e v st = (false, st, { applyCalls := [e.id] }) := by
  simp [applyVolumeToElement, setup_existing env e st .failed h]

lemma apply_bad (env : Env) (e : MediaElement) (v : ℚ) (st : EngineState)
    (h : mapGet st.gainNodes e.id = none)
    (hbad : effectiveSrc e = "" ∨ isIgnoredHost (some (effectiveSrc e)) = true) :
    applyVolumeToElement env e v st = (false, st, { applyCalls := [e.id] }) := by
  simp [applyVolumeToElement, setup_bad env e st h hbad]

lemma apply_ready (env : Env) (e : MediaElement) (v : ℚ) (st : EngineState) (g : ℚ)
    (h : mapGet st.gainNodes e.id = some (.ready g)) :
    applyVolumeToElement env e v st =
      if g = v / 100 then (true, st, { applyCalls := [e.id] })
      else (true, { st with gainNodes := mapSet st.gainNodes e.id (.ready (v / 100)) },
            { gainSets := [(e.id, v / 100)], applyCalls := [e.id] }) := by
  by_cases hg : g = v / 100 <;>
    simp [applyVolumeToElement, setup_existing env e st (.ready g) h, hg]

lemma apply_spec (env : Env) (e : MediaElement) (v : ℚ) (st : EngineState) :
    (applyVolumeToElement env e v st).2.1.currentVolume = st.currentVolume ∧
    (applyVolumeToElement env e v st).2.1.processed = st.processed ∧
    (applyVolumeToElement env e v st).2.2.writes = [] ∧
    (applyVolumeToElement env e v st).2.2.notifs = [] ∧
    (applyVolumeToElement env e v st).2.2.responses = [] ∧
    (applyVolumeToElement env e v st).2.2.listeners = [] ∧
    (∀ p ∈ (applyVolumeToElement env e v st).2.2.gainSets, p.1 = e.id) ∧
    (∀ j, j ≠ e.id →
      mapGet (applyVolumeToElement env e v st).2.1.gainNodes j = mapGet st.gainNodes j) ∧
    (∀ j, mapGet st.gainNodes j = some .failed →
      mapGet (applyVolumeToElement env e v st).2.1.gainNodes j = some .failed) := by
  rcases hs : setupAudioContext env e st with ⟨cd, st'⟩
  have hcv : st'.currentVolume = st.currentVolume := by
    have h := setup_cv env e st; rw [hs] at h; exact h
  have hpr : st'.processed = st.processed := by
    have h := setup_processed env e st; rw [hs] at h; exact h
  have hne : ∀ j, j ≠ e.id → mapGet st'.gainNodes j = mapGet st.gainNodes j := by
    intro j hj
    have h := setup_gainNodes_ne env e st j hj; rw [hs] at h; exact h
  have hpf : ∀ j, mapGet st.gainNodes j = some .failed →
      mapGet st'.gainNodes j = some .failed := by
    intro j hj
    have h := setup_pres_failed env e st j hj; rw [hs] at h; exact h
  cases cd with
  | none => simp_all [applyVolumeToElement, hs]
  | some entry =>
    cases entry with
    | failed => simp_all [applyVolumeToElement, hs]
    | ready g =>
      by_cases hg : g = v / 100
      · simp_all [applyVolumeToElement, hs, hg]
      · simp only [applyVolumeToElement, hs, if_neg hg]
        refine ⟨hcv, hpr, trivial, trivial, trivial, trivial, ?_, ?_, ?_⟩
        · intro p hp
          simp only [List.mem_singleton] at hp
          simp [hp]
        · intro j hj
          simpa [mapGet_mapSet_ne _ _ _ _ hj] using hne j hj
        · intro j hj
          by_cases hje : j = e.id
          · exfalso
            have hx := setup_existing env e st .failed (hje ▸ hj)
            rw [hs] at hx
            have h1 : (some (Entry.ready g) : Option Entry) = some .failed :=
              congrArg Prod.fst hx
            simp at h1
          · simpa [mapGet_mapSet_ne _ _ _ _ hje] using hpf j hj

/-! ### Lemmas about `processMediaElement` -/

lemma process_already (env : Env) (e : MediaElement) (st : EngineState)
    (h : e.id ∈ st.processed) :
    processMediaElement env e st = (st, {}) := by
  simp [processMediaElement, h]

lemma process_spec (env : Env) (e : MediaElement) (st : EngineState) :
    (processMediaElement env e st).1.currentVolume = st.currentVolume ∧
    (processMediaElement env e st).2.writes = [] ∧
    (processMediaElement env e st).2.notifs = [] ∧
    (processMediaElement env e st).2.responses = [] ∧
    (∀ p ∈ (processMediaElement env e st).2.gainSets, p.1 = e.id) ∧
    (∀ j, j ≠ e.id →
      mapGet (processMediaElement env e st).1.gainNodes j = mapGet st.gainNodes j) ∧
    (∀ j, mapGet st.gainNodes j = some .failed →
      mapGet (processMediaElement env e st).1.gainNodes j = some .failed) := by
  by_cases hm : e.id ∈ st.processed
  · simp [process_already env e st hm]
  · by_cases hb : e.paused = false ∧ env.browserDefined = true
    · have ha := apply_spec env e st.currentVolume { st with processed := e.id :: st.processed }
      simp only [processMediaElement, if_neg hm, if_pos hb]
      refine ⟨?_, ?_, ?_, ?_, ?_, ?_, ?_⟩
      · exact ha.1
      · simp [ha.2.2.1]
      · simp [ha.2.2.2.1]
      · simp [ha.2.2.2.2.1]
      · intro p hp
        simp only [app_gainSets, List.mem_append] at hp
        rcases hp with hp | hp
        · simp at hp
        · exact ha.2.2.2.2.2.2.1 p hp
      · exact fun j hj => ha.2.2.2.2.2.2.2.1 j hj
      · exact fun j hj => ha.2.2.2.2.2.2.2.2 j hj
    · simp [processMediaElement, if_neg hm, if_neg hb]

lemma process_new (env : Env) (e : MediaElement) (st : EngineState)
    (h : e.id ∉ st.processed) :
    (processMediaElement env e st).1.processed = e.id :: st.processed ∧
    (processMediaElement env e st).2.listeners = [e.id] := by
  by_cases hb : e.paused = false ∧ env.browserDefined = true
  · have ha := apply_spec env e st.currentVolume { st with processed := e.id :: st.processed }
    simp only [processMediaElement, if_neg h, if_pos hb]
    exact ⟨ha.2.1, by simp [ha.2.2.2.2.2.1]⟩
  · simp [processMediaElement, if_neg h, if_neg hb]

/-! ### Lemmas about the `changeSoundVolume` element loop -/

lemma applyStep_spec (env : Env) (acc : EngineState × Effects) (e : MediaElement) :
    (applyStep env acc e).1.currentVolume = acc.1.currentVolume ∧
    (applyStep env acc e).2.writes = acc.2.writes ∧
    (applyStep env acc e).2.notifs = acc.2.notifs ∧
    (applyStep env acc e).2.responses = acc.2.responses ∧
    (∀ p ∈ (applyStep env acc e).2.gainSets, p.1 = e.id ∨ p ∈ acc.2.gainSets) ∧
    (∀ j, j ≠ e.id →
      mapGet (applyStep env acc e).1.gainNodes j = mapGet acc.1.gainNodes j) ∧
    (∀ j, mapGet acc.1.gainNodes j = some .failed →
      mapGet (applyStep env acc e).1.gainNodes j = some .failed) := by
  have hps := process_spec env e acc.1
  by_cases hgate :
      effectiveSrc e ≠ "" ∧ isIgnoredHost (some (effectiveSrc e)) = false
  · have has := apply_spec env e (processMediaElement env e acc.1).1.currentVolume
      (processMediaElement env e acc.1).1
    simp only [applyStep, if_pos hgate]
    refine ⟨?_, ?_, ?_, ?_, ?_, ?_, ?_⟩
    · rw [has.1, hps.1]
    · simp [has.2.2.1, hps.2.1]
    · simp [has.2.2.2.1, hps.2.2.1]
    · simp [has.2.2.2.2.1, hps.2.2.2.1]
    · intro p hp
      simp only [app_gainSets, List.mem_append] at hp
      rcases hp with hp | hp | hp
      · exact Or.inr hp
      · exact Or.inl (hps.2.2.2.2.1 p hp)
      · exact Or.inl (has.2.2.2.2.2.2.1 p hp)
    · intro j hj
      rw [has.2.2.2.2.2.2.2.1 j hj, hps.2.2.2.2.2.1 j hj]
    · intro j hj
      exact has.2.2.2.2.2.2.2.2 j (hps.2.2.2.2.2.2 j hj)
  · simp only [applyStep, if_neg hgate]
    refine ⟨hps.1, ?_, ?_, ?_, ?_, hps.2.2.2.2.2.1, hps.2.2.2.2.2.2⟩
    · simp [hps.2.1]
    · simp [hps.2.2.1]
    · simp [hps.2.2.2.1]
    · intro p hp
      simp only [app_gainSets, List.mem_append] at hp
      rcases hp with hp | hp
      · exact Or.inr hp
      · exact Or.inl (hps.2.2.2.2.1 p hp)

lemma foldl_spec (env : Env) (doc : List MediaElement) (acc : EngineState × Effects) :
    (List.foldl (applyStep env) acc doc).1.currentVolume = acc.1.currentVolume ∧
    (List.foldl (applyStep env) acc doc).2.writes = acc.2.writes ∧
    (List.foldl (applyStep env) acc doc).2.notifs = acc.2.notifs ∧
    (List.foldl (applyStep env) acc doc).2.responses = acc.2.responses ∧
    (∀ j, mapGet acc.1.gainNodes j = some .failed →
      mapGet (List.foldl (applyStep env) acc doc).1.gainNodes j = some .failed) := by
  induction doc generalizing acc with
  | nil => exact ⟨rfl, rfl, rfl, rfl, fun j hj => hj⟩
  | cons e rest ih =>
    have hstep := applyStep_spec env acc e
    have hrest := ih (applyStep env acc e)
    simp only [List.foldl_cons]
    refine ⟨hrest.1.trans hstep.1, hrest.2.1.trans hstep.2.1,
      hrest.2.2.1.trans hstep.2.2.1, hrest.2.2.2.1.trans hstep.2.2.2.1, ?_⟩
    intro j hj
    exact hrest.2.2.2.2 j (hstep.2.2.2.2.2.2 j hj)

lemma process_bad (env : Env) (e : MediaElement) (st : EngineState)
    (hbad : effectiveSrc e = "" ∨ isIgnoredHost (some (effectiveSrc e)) = true)
    (hget : mapGet st.gainNodes e.id = none) :
    mapGet (processMediaElement env e st).1.gainNodes e.id = none ∧
    (processMediaElement env e st).2.gainSets = [] := by
  by_cases hm : e.id ∈ st.processed
  · simp [process_already env e st hm, hget]
  · by_cases hb : e.paused = false ∧ env.browserDefined = true
    · have hb' := apply_bad env e st.currentVolume
        { st with processed := e.id :: st.processed } hget hbad
      simp [processMediaElement, if_neg hm, if_pos hb, hb', hget]
    · simp [processMediaElement, if_neg hm, if_neg hb, hget]

lemma applyStep_bad (env : Env) (acc : EngineState × Effects) (e : MediaElement) (i : Nat)
    (hbad : e.id = i → effectiveSrc e = "" ∨ isIgnoredHost (some (effectiveSrc e)) = true)
    (hget : mapGet acc.1.gainNodes i = none)
    (hgs : ∀ p ∈ acc.2.gainSets, p.1 ≠ i) :
    mapGet (applyStep env acc e).1.gainNodes i = none ∧
    ∀ p ∈ (applyStep env acc e).2.gainSets, p.1 ≠ i := by
  by_cases hei : e.id = i
  · subst hei
    have hb := hbad rfl
    have hgate : ¬(effectiveSrc e ≠ "" ∧ isIgnoredHost (some (effectiveSrc e)) = false) := by
      rcases hb with hb | hb
      · exact fun hc => hc.1 hb
      · exact fun hc => by rw [hb] at hc; exact absurd hc.2 (by simp)
    have hpb := process_bad env e acc.1 hb hget
    simp only [applyStep, if_neg hgate]
    refine ⟨hpb.1, ?_⟩
    intro p hp
    simp only [app_gainSets, List.mem_append, hpb.2, List.not_mem_nil] at hp
    rcases hp with hp | hp
    · exact hgs p hp
    · exact absurd hp (by simp)
  · have hstep := applyStep_spec env acc e
    refine ⟨by rw [hstep.2.2.2.2.2.1 i (fun hh => hei hh.symm)]; exact hget, ?_⟩
    intro p hp
    rcases hstep.2.2.2.2.1 p hp with hp' | hp'
    · rw [hp']; exact hei
    · exact hgs p hp'

lemma foldl_bad (env : Env) (doc : List MediaElement) (acc : EngineState × Effects) (i : Nat)
    (hbad : ∀ e ∈ doc, e.id = i →
      effectiveSrc e = "" ∨ isIgnoredHost (some (effectiveSrc e)) = true)
    (hget : mapGet acc.1.gainNodes i = none)
    (hgs : ∀ p ∈ acc.2.gainSets, p.1 ≠ i) :
    mapGet (List.foldl (applyStep env) acc doc).1.gainNodes i = none ∧
    ∀ p ∈ (List.foldl (applyStep env) acc doc).2.gainSets, p.1 ≠ i := by
  induction doc generalizing acc with
  | nil => exact ⟨hget, hgs⟩
  | cons e rest ih =>
    have hstep := applyStep_bad env acc e i (hbad e (by simp)) hget hgs
    simp only [List.foldl_cons]
    exact ih (applyStep env acc e)
      (fun e' he' => hbad e' (List.mem_cons_of_mem e he')) hstep.1 hstep.2

/-! ### Lemmas about `changeSoundVolume` -/

lemma change_cv (env : Env) (doc : List MediaElement) (st : EngineState) :
    (changeSoundVolume env doc st).1.currentVolume = st.currentVolume := by
  unfold changeSoundVolume
  by_cases hb : env.browserDefined = true
  · simp only [if_pos hb]
    exact (foldl_spec env doc _).1
  · simp only [if_neg hb]

lemma change_writes (env : Env) (doc : List MediaElement) (st : EngineState) :
    (changeSoundVolume env doc st).2.writes = (saveVolume st.currentVolume).writes := by
  unfold changeSoundVolume
  by_cases hb : env.browserDefined = true
  · simp only [if_pos hb]
    rw [(foldl_spec env doc _).2.1]
    simp [sendToBackground]
  · simp only [if_neg hb]
    simp [sendToBackground]

lemma change_notifs (env : Env) (doc : List MediaElement) (st : EngineState) :
    (changeSoundVolume env doc st).2.notifs = [st.currentVolume] := by
  unfold changeSoundVolume
  by_cases hb : env.browserDefined = true
  · simp only [if_pos hb]
    rw [(foldl_spec env doc _).2.2.1]
    simp [sendToBackground, saveVolume]
    split <;> rfl
  · simp only [if_neg hb]
    simp [sendToBackground, saveVolume]
    split <;> rfl

lemma change_responses (env : Env) (doc : List MediaElement) (st : EngineState) :
    (changeSoundVolume env doc st).2.responses = [] := by
  unfold changeSoundVolume
  by_cases hb : env.browserDefined = true
  · simp only [if_pos hb]
    rw [(foldl_spec env doc _).2.2.2.1]
    simp [sendToBackground, saveVolume]
    split <;> rfl
  · simp only [if_neg hb]
    simp [sendToBackground, saveVolume]
    split <;> rfl

lemma change_pres_failed (env : Env) (doc : List MediaElement) (st : EngineState) (j : Nat)
    (h : mapGet st.gainNodes j = some .failed) :
    mapGet (changeSoundVolume env doc st).1.gainNodes j = some .failed := by
  unfold changeSoundVolume
  by_cases hb : env.browserDefined = true
  · simp only [if_pos hb]
    exact (foldl_spec env doc _).2.2.2.2 j h
  · simp only [if_neg hb]
    exact h

lemma change_bad (env : Env) (doc : List MediaElement) (st : EngineState) (i : Nat)
    (hbad : ∀ e ∈ doc, e.id = i →
      effectiveSrc e = "" ∨ isIgnoredHost (some (effectiveSrc e)) = true)
    (hget : mapGet st.gainNodes i = none) :
    mapGet (changeSoundVolume env doc st).1.gainNodes i = none ∧
    ∀ p ∈ (changeSoundVolume env doc st).2.gainSets, p.1 ≠ i := by
  unfold changeSoundVolume
  by_cases hb : env.browserDefined = true
  · simp only [if_pos hb]
    refine foldl_bad env doc _ i hbad hget ?_
    intro p hp
    simp only [app_gainSets] at hp
    simp only [saveVolume, sendToBackground] at hp
    revert hp
    split <;> simp
  · simp only [if_neg hb]
    refine ⟨hget, ?_⟩
    intro p hp
    simp only [app_gainSets] at hp
    simp only [saveVolume, sendToBackground] at hp
    revert hp
    split <;> simp

/-! ### Lemmas about `handleSetVolume` and `handleMessage` -/

lemma setVolume_spec (env : Env) (doc : List MediaElement) (st : EngineState)
    (data : Option (Option JSValue)) :
    (0 ≤ st.currentVolume → st.currentVolume ≤ 600 →
      0 ≤ (handleSetVolume env doc st data).1.currentVolume ∧
      (handleSetVolume env doc st data).1.currentVolume ≤ 600) ∧
    (handleSetVolume env doc st data).2.responses = [] ∧
    (∀ j, mapGet st.gainNodes j = some .failed →
      mapGet (handleSetVolume env doc st data).1.gainNodes j = some .failed) := by
  rcases data with _ | d
  · exact ⟨fun h0 h6 => ⟨h0, h6⟩, by trivial, fun j hj => hj⟩
  rcases d with _ | v
  · exact ⟨fun h0 h6 => ⟨h0, h6⟩, by trivial, fun j hj => hj⟩
  cases htn : toNumber v with
  | none =>
    simp only [handleSetVolume, htn]
    exact ⟨fun h0 h6 => ⟨h0, h6⟩, by trivial, fun j hj => hj⟩
  | some n =>
    by_cases hr : 0 ≤ n ∧ n ≤ 600
    · simp only [handleSetVolume, htn, if_pos hr]
      refine ⟨fun _ _ => ?_, change_responses env doc _, fun j hj => change_pres_failed env doc _ j hj⟩
      rw [change_cv]
      exact hr
    · simp only [handleSetVolume, htn, if_neg hr]
      exact ⟨fun h0 h6 => ⟨h0, h6⟩, by trivial, fun j hj => hj⟩

lemma setVolume_invalid (env : Env) (doc : List MediaElement) (st : EngineState) (v : JSValue)
    (h : toNumber v = none ∨ ∃ x, toNumber v = some x ∧ (x < 0 ∨ 600 < x)) :
    handleSetVolume env doc st (some (some v)) = (st, {}) := by
  rcases h with h | ⟨x, hx, hr⟩
  · simp [handleSetVolume, h]
  · have hneg : ¬(0 ≤ x ∧ x ≤ 600) := by
      rcases hr with hr | hr <;> exact fun hc => by linarith [hc.1, hc.2]
    simp [handleSetVolume, hx, if_neg hneg]

lemma handle_change (env : Env) (doc : List MediaElement) (st : EngineState) (req : Request)
    (h1 : req.action = "changeSoundVolume") :
    handleMessage env doc st req =
      ((handleSetVolume env doc st req.data).1,
       Effects.app (handleSetVolume env doc st req.data).2
         { responses := [(handleSetVolume env doc st req.data).1.currentVolume] }) := by
  simp [handleMessage, h1]

lemma handle_get (env : Env) (doc : List MediaElement) (st : EngineState) (req : Request)
    (h2 : req.action = "getSoundVolume") :
    handleMessage env doc st req = (st, { responses := [st.currentVolume] }) := by
  simp [handleMessage, h2]

lemma handle_cv_range (env : Env) (doc : List MediaElement) (st : EngineState) (req : Request)
    (h0 : 0 ≤ st.currentVolume) (h6 : st.currentVolume ≤ 600) :
    0 ≤ (handleMessage env doc st req).1.currentVolume ∧
    (handleMessage env doc st req).1.currentVolume ≤ 600 := by
  by_cases h1 : req.action = "changeSoundVolume"
  · rw [handle_change env doc st req h1]
    exact (setVolume_spec env doc st req.data).1 h0 h6
  · by_cases h2 : req.action = "getSoundVolume"
    · rw [handle_get env doc st req h2]
      exact ⟨h0, h6⟩
    · simp only [handleMessage, if_neg h1, if_neg h2]
      exact ⟨h0, h6⟩

lemma handle_pres_failed (env : Env) (doc : List MediaElement) (st : EngineState) (req : Request)
    (j : Nat) (h : mapGet st.gainNodes j = some .failed) :
    mapGet (handleMessage env doc st req).1.gainNodes j = some .failed := by
  by_cases h1 : req.action = "changeSoundVolume"
  · rw [handle_change env doc st req h1]
    exact (setVolume_spec env doc st req.data).2.2 j h
  · by_cases h2 : req.action = "getSoundVolume"
    · rw [handle_get env doc st req h2]
      exact h
    · simp only [handleMessage, if_neg h1, if_neg h2]
      exact h

lemma saveVolume_writes_range (v : ℚ) : ∀ w ∈ (saveVolume v).writes, 0 ≤ w ∧ w ≤ 600 := by
  intro w hw
  by_cases h : 0 ≤ v ∧ v ≤ 600
  · simp only [saveVolume, if_pos h] at hw
    simp only [List.mem_singleton] at hw
    exact hw ▸ h
  · simp only [saveVolume, if_neg h] at hw
    exact absurd hw (by simp)

lemma setVolume_writes_range (env : Env) (doc : List MediaElement) (st : EngineState)
    (data : Option (Option JSValue)) :
    ∀ w ∈ (handleSetVolume env doc st data).2.writes, 0 ≤ w ∧ w ≤ 600 := by
  rcases data with _ | d
  · simp [handleSetVolume]
  rcases d with _ | v
  · simp [handleSetVolume]
  cases htn : toNumber v with
  | none => simp [handleSetVolume, htn]
  | some n =>
    by_cases hr : 0 ≤ n ∧ n ≤ 600
    · simp only [handleSetVolume, htn, if_pos hr]
      intro w hw
      rw [change_writes] at hw
      exact saveVolume_writes_range _ w hw
    · simp [handleSetVolume, htn, if_neg hr]

lemma handle_writes_range (env : Env) (doc : List MediaElement) (st : EngineState)
    (req : Request) :
    ∀ w ∈ (handleMessage env doc st req).2.writes, 0 ≤ w ∧ w ≤ 600 := by
  by_cases h1 : req.action = "changeSoundVolume"
  · rw [handle_change env doc st req h1]
    intro w hw
    simp only [app_writes] at hw
    rw [List.append_nil] at hw
    exact setVolume_writes_range env doc st req.data w hw
  · by_cases h2 : req.action = "getSoundVolume"
    · rw [handle_get env doc st req h2]
      simp
    · simp only [handleMessage, if_neg h1, if_neg h2]
      simp

/-! ### The claims -/

/-- C9: `isIgnoredHost` is a total Boolean function (never throws): an
absent (`none`) or empty URL is never classified as ignored, and for
every URL string — well-formed or malformed — the classification is
exactly substring containment of some configured host in the whole URL
string. -/
theorem c9_isIgnoredHost_total_substring :
    isIgnoredHost none = false ∧ isIgnoredHost (some "") = false ∧
    ∀ s : String, (isIgnoredHost (some s) = true ↔
      ∃ h ∈ IGNORED_HOSTS, h.data <:+: s.data) := by
  refine ⟨rfl, by simp [isIgnoredHost], ?_⟩
  intro s
  by_cases hs : s = ""
  · subst hs
    have hno : ¬∃ h ∈ IGNORED_HOSTS, h.data <:+: ("" : String).data := by decide
    simp only [isIgnoredHost, if_pos rfl]
    exact iff_of_false (by simp) hno
  · simp [isIgnoredHost, hs, List.any_eq_true, jsIncludes, decide_eq_true_eq]

/-- C7: for a media element with no existing entry whose effective
source is empty or matches the ignored-host list, `setupAudioContext`
returns `null` and creates no entry, no matter how many times it is
called. -/
theorem c7_ensureGraph_ignored_null (env : Env) (e : MediaElement) (st : EngineState)
    (hget : mapGet st.gainNodes e.id = none)
    (hbad : effectiveSrc e = "" ∨ isIgnoredHost (some (effectiveSrc e)) = true) :
    setupAudioContext env e st = (none, st) ∧
    ∀ n : Nat, (fun s => (setupAudioContext env e s).2)^[n] st = st ∧
      mapGet ((fun s => (setupAudioContext env e s).2)^[n] st).gainNodes e.id = none ∧
      (setupAudioContext env e ((fun s => (setupAudioContext env e s).2)^[n] st)).1 = none := by
  have h1 := setup_bad env e st hget hbad
  refine ⟨h1, ?_⟩
  intro n
  have hiter : (fun s => (setupAudioContext env e s).2)^[n] st = st := by
    induction n with
    | zero => rfl
    | succ k ih =>
      rw [Function.iterate_succ_apply', ih]
      simp [h1]
  exact ⟨hiter, by rw [hiter]; exact hget, by rw [hiter, h1]⟩

/-- C7 witness: a concrete ignored-host element with no entry. -/
theorem c7_witness :
    mapGet (⟨100, [], []⟩ : EngineState).gainNodes 0 = none ∧
    isIgnoredHost (some (effectiveSrc ⟨0, "https://computerbase.de/v.mp4", "", true⟩)) = true ∧
    setupAudioContext ⟨true, true, []⟩ ⟨0, "https://computerbase.de/v.mp4", "", true⟩
        ⟨100, [], []⟩ = (none, ⟨100, [], []⟩) :=
  ⟨by decide, by decide,
   (c7_ensureGraph_ignored_null ⟨true, true, []⟩ ⟨0, "https://computerbase.de/v.mp4", "", true⟩
     ⟨100, [], []⟩ (by decide) (Or.inr (by decide))).1⟩

/-- C5: a `Failed` entry is permanent: `setupAudioContext` returns the
same failed entry without touching the state, `applyVolumeToElement`
returns `false` with no mutation, and no top-level operation
(`processMediaElement`, `changeSoundVolume`, `handleMessage`) ever turns
a failed entry back into a ready one. -/
theorem c5_failed_is_permanent (env : Env) (e : MediaElement) (v : ℚ) (st : EngineState)
    (h : mapGet st.gainNodes e.id = some .failed) :
    setupAudioContext env e st = (some .failed, st) ∧
    applyVolumeToElement env e v st = (false, st, { applyCalls := [e.id] }) ∧
    ∀ env2 doc st2 j req, ∀ e2 : MediaElement, mapGet st2.gainNodes j = some .failed →
      mapGet (processMediaElement env2 e2 st2).1.gainNodes j = some .failed ∧
      mapGet (changeSoundVolume env2 doc st2).1.gainNodes j = some .failed ∧
      mapGet (handleMessage env2 doc st2 req).1.gainNodes j = some .failed := by
  refine ⟨setup_existing env e st .failed h, apply_failedEntry env e v st h, ?_⟩
  intro env2 doc st2 j req e2 hj
  exact ⟨(process_spec env2 e2 st2).2.2.2.2.2.2 j hj,
    change_pres_failed env2 doc st2 j hj, handle_pres_failed env2 doc st2 req j hj⟩

/-- C5 witness: a concrete element whose entry is failed. -/
theorem c5_witness :
    mapGet ((⟨100, [(0, .failed)], []⟩ : EngineState).gainNodes) 0 = some .failed ∧
    applyVolumeToElement ⟨true, true, []⟩ ⟨0, "https://example.com/a.mp3", "", true⟩ 300
        ⟨100, [(0, .failed)], []⟩ =
      (false, ⟨100, [(0, .failed)], []⟩, { applyCalls := [0] }) :=
  ⟨by decide,
   (c5_failed_is_permanent ⟨true, true, []⟩ ⟨0, "https://example.com/a.mp3", "", true⟩ 300
     ⟨100, [(0, .failed)], []⟩ (by decide)).2.1⟩

/-- C10: `processMediaElement` is exactly-once per element: it registers
the "play" listener only on the first invocation, and an invocation on
an already-processed element is a complete no-op (same state, empty
effect trace). -/
theorem c10_process_exactly_once (env : Env) (e : MediaElement) (st : EngineState) :
    (e.id ∈ st.processed → processMediaElement env e st = (st, {})) ∧
    (e.id ∉ st.processed →
      (processMediaElement env e st).2.listeners = [e.id] ∧
      (processMediaElement env e st).1.processed = e.id :: st.processed ∧
      processMediaElement env e (processMediaElement env e st).1 =
        ((processMediaElement env e st).1, {})) := by
  refine ⟨fun h => process_already env e st h, fun h => ?_⟩
  have hn := process_new env e st h
  refine ⟨hn.2, hn.1, ?_⟩
  apply process_already
  rw [hn.1]
  exact List.mem_cons_self _ _

/-- C10 witness: a concrete unprocessed element gets its listener
registered exactly once. -/
theorem c10_witness :
    (0 : Nat) ∉ (⟨100, [], []⟩ : EngineState).processed ∧
    (processMediaElement ⟨true, true, []⟩ ⟨0, "https://example.com/a.mp3", "", true⟩
        ⟨100, [], []⟩).2.listeners = [0] :=
  ⟨by decide,
   ((c10_process_exactly_once ⟨true, true, []⟩ ⟨0, "https://example.com/a.mp3", "", true⟩
     ⟨100, [], []⟩).2 (by decide)).1⟩

/-- C8: for both recognized actions the message handler sends exactly
one response, of shape `{soundVolume: current}` (the current volume
after any update), and handling `getSoundVolume` mutates no engine
state and produces no other effect. -/
theorem c8_handler_always_responds (env : Env) (doc : List MediaElement) (st : EngineState)
    (req : Request)
    (h : req.action = "changeSoundVolume" ∨ req.action = "getSoundVolume") :
    (handleMessage env doc st req).2.responses =
      [(handleMessage env doc st req).1.currentVolume] ∧
    (req.action = "getSoundVolume" →
      handleMessage env doc st req = (st, { responses := [st.currentVolume] })) := by
  rcases h with h1 | h2
  · rw [handle_change env doc st req h1]
    refine ⟨by simp [(setVolume_spec env doc st req.data).2.1], fun h2 => ?_⟩
    rw [h1] at h2
    exact absurd h2 (by decide)
  · rw [handle_get env doc st req h2]
    exact ⟨rfl, fun _ => rfl⟩

/-- C8 witness: a concrete `getSoundVolume` request is answered with the
current volume and nothing else. -/
theorem c8_witness :
    handleMessage ⟨true, true, []⟩ [] ⟨100, [], []⟩ ⟨"getSoundVolume", none⟩ =
      ((⟨100, [], []⟩ : EngineState), { responses := [100] }) :=
  (c8_handler_always_responds ⟨true, true, []⟩ [] ⟨100, [], []⟩ ⟨"getSoundVolume", none⟩
    (Or.inr rfl)).2 rfl

/-- C1 counterexample: the claimed watermark short-circuit does not
exist.  A duplicate volume-change request (requested 300 with the
current volume already 300) in a document with no media elements — so
certainly none playing — still performs a persistence write and a
companion notification. -/
theorem c1_counterexample :
    (handleMessage ⟨true, true, []⟩ [] ⟨300, [], []⟩
        ⟨"changeSoundVolume", some (some (.num 300))⟩).2.writes = [300] ∧
    (handleMessage ⟨true, true, []⟩ [] ⟨300, [], []⟩
        ⟨"changeSoundVolume", some (some (.num 300))⟩).2.notifs = [300] := by
  constructor
  · decide
  · decide

/-- C1 amended: `changeSoundVolume` has no short-circuit of any kind:
every invocation — including a duplicate request while no media is
playing — performs exactly one persistence write and exactly one
companion notification of the current volume; only gain mutation is
conditionally suppressed (inside `applyVolumeToElement`). -/
theorem c1_no_watermark_shortcircuit (env : Env) (doc : List MediaElement) (st : EngineState)
    (h0 : 0 ≤ st.currentVolume) (h6 : st.currentVolume ≤ 600) :
    (changeSoundVolume env doc st).2.writes = [st.currentVolume] ∧
    (changeSoundVolume env doc st).2.notifs = [st.currentVolume] ∧
    changeSoundVolume env [] st =
      (st, { writes := [st.currentVolume], notifs := [st.currentVolume] }) := by
  refine ⟨?_, change_notifs env doc st, ?_⟩
  · rw [change_writes]
    simp [saveVolume, h0, h6]
  · unfold changeSoundVolume
    by_cases hb : env.browserDefined = true <;>
      simp [hb, saveVolume, sendToBackground, Effects.app, h0, h6]

/-- C1 witness: the duplicate-request scenario at volume 300. -/
theorem c1_witness :
    ((0 : ℚ) ≤ 300 ∧ (300 : ℚ) ≤ 600) ∧
    changeSoundVolume ⟨true, true, []⟩ [] ⟨300, [], []⟩ =
      ((⟨300, [], []⟩ : EngineState), { writes := [300], notifs := [300] }) :=
  ⟨⟨by norm_num, by norm_num⟩,
   (c1_no_watermark_shortcircuit ⟨true, true, []⟩ [] ⟨300, [], []⟩
     (by norm_num) (by norm_num)).2.2⟩

/-- C2 counterexample: `loadSavedVolume` does not range-check the
persisted value: a stored numeric 1000 is adopted as the current volume,
which lies outside `[0, 600]` (the claim says the default 100 would be
used). -/
theorem c2_counterexample :
    loadSavedVolume (some (.num 1000)) false = 1000 ∧ ¬((1000 : ℚ) ≤ 600) := by
  constructor
  · decide
  · norm_num

/-- C2 amended: the volume stays in `[0, 600]` after load provided any
numeric persisted value is itself in range (absent, unreadable and
non-numeric values default to 100, but a numeric out-of-range persisted
value is adopted unclamped); every message-handler operation preserves
the range, and every persistence write is in range. -/
theorem c2_volume_range (stored : Option JSValue) (err : Bool) (env : Env)
    (doc : List MediaElement) (st : EngineState) (req : Request)
    (hstored : ∀ v, stored = some v → ∀ x, toNumber v = some x → 0 ≤ x ∧ x ≤ 600)
    (h0 : 0 ≤ st.currentVolume) (h6 : st.currentVolume ≤ 600) :
    (0 ≤ loadSavedVolume stored err ∧ loadSavedVolume stored err ≤ 600) ∧
    (0 ≤ (handleMessage env doc st req).1.currentVolume ∧
      (handleMessage env doc st req).1.currentVolume ≤ 600) ∧
    (∀ w ∈ (handleMessage env doc st req).2.writes, 0 ≤ w ∧ w ≤ 600) := by
  refine ⟨?_, handle_cv_range env doc st req h0 h6, handle_writes_range env doc st req⟩
  unfold loadSavedVolume
  by_cases he : err = true
  · simp only [if_pos he]
    norm_num
  · simp only [if_neg he]
    rcases stored with _ | v
    · norm_num [Option.getD, toNumber]
    · simp only [Option.getD]
      cases htn : toNumber v with
      | none => norm_num
      | some x => exact hstored v rfl x htn

/-- C2 witness: a persisted in-range value 100 and a `getSoundVolume`
request keep the volume in range. -/
theorem c2_witness :
    (0 ≤ loadSavedVolume (some (.num 100)) false ∧
      loadSavedVolume (some (.num 100)) false ≤ 600) ∧
    (0 ≤ (handleMessage ⟨true, true, []⟩ [] ⟨100, [], []⟩
        ⟨"getSoundVolume", none⟩).1.currentVolume ∧
      (handleMessage ⟨true, true, []⟩ [] ⟨100, [], []⟩
        ⟨"getSoundVolume", none⟩).1.currentVolume ≤ 600) ∧
    (∀ w ∈ (handleMessage ⟨true, true, []⟩ [] ⟨100, [], []⟩
        ⟨"getSoundVolume", none⟩).2.writes, 0 ≤ w ∧ w ≤ 600) :=
  c2_volume_range (some (.num 100)) false ⟨true, true, []⟩ [] ⟨100, [], []⟩
    ⟨"getSoundVolume", none⟩
    (by
      intro v hv x hx
      injection hv with hv1
      subst hv1
      simp only [toNumber, Option.some.injEq] at hx
      subst hx
      norm_num)
    (by norm_num) (by norm_num)

/-- C3 counterexample: `changeSoundVolume` does invoke
`applyVolumeToElement` on an ignored-host (fallback) element when that
element is currently playing and not yet processed: the first-time
`processMediaElement` path inside the loop calls it (the call mutates
nothing and returns false, but it is a call). -/
theorem c3_counterexample :
    isIgnoredHost (some (effectiveSrc
      ⟨0, "https://computerbase.de/v.mp4", "", false⟩)) = true ∧
    (changeSoundVolume ⟨true, true, []⟩
        [⟨0, "https://computerbase.de/v.mp4", "", false⟩] ⟨300, [], []⟩).2.applyCalls = [0] := by
  constructor
  · decide
  · decide

/-- C3 amended: for every element id `i` such that every document
element with that id has an empty or ignored-host source and no graph
entry exists for `i`, `changeSoundVolume` still notifies the companion
with the current volume, never performs a gain mutation for `i`, and
never creates an entry for `i` — although `applyVolumeToElement` may
still be invoked (returning false, mutating nothing) for a playing,
not-yet-processed such element. -/
theorem c3_fallback_notify_no_gain (env : Env) (doc : List MediaElement) (st : EngineState)
    (i : Nat)
    (hbad : ∀ e ∈ doc, e.id = i →
      effectiveSrc e = "" ∨ isIgnoredHost (some (effectiveSrc e)) = true)
    (hget : mapGet st.gainNodes i = none) :
    (changeSoundVolume env doc st).2.notifs = [st.currentVolume] ∧
    (∀ p ∈ (changeSoundVolume env doc st).2.gainSets, p.1 ≠ i) ∧
    mapGet (changeSoundVolume env doc st).1.gainNodes i = none :=
  ⟨change_notifs env doc st, (change_bad env doc st i hbad hget).2,
   (change_bad env doc st i hbad hget).1⟩

/-- C3 witness: a concrete playing ignored-host element is notified
about but never gain-mutated. -/
theorem c3_witness :
    (changeSoundVolume ⟨true, true, []⟩
        [⟨0, "https://computerbase.de/v.mp4", "", false⟩] ⟨300, [], []⟩).2.notifs = [300] ∧
    (∀ p ∈ (changeSoundVolume ⟨true, true, []⟩
        [⟨0, "https://computerbase.de/v.mp4", "", false⟩] ⟨300, [], []⟩).2.gainSets,
      p.1 ≠ 0) :=
  ⟨(c3_fallback_notify_no_gain ⟨true, true, []⟩
      [⟨0, "https://computerbase.de/v.mp4", "", false⟩] ⟨300, [], []⟩ 0
      (by decide) (by decide)).1,
   (c3_fallback_notify_no_gain ⟨true, true, []⟩
      [⟨0, "https://computerbase.de/v.mp4", "", false⟩] ⟨300, [], []⟩ 0
      (by decide) (by decide)).2.1⟩

/-- C4 counterexample: the non-numeric value `""` (the empty string) is
accepted: JavaScript `Number("")` is `0`, which passes the range check,
so the handler sets the volume from 300 to 0 and performs a persistence
write — the claim says any non-numeric value leaves the volume
unchanged with no write. -/
theorem c4_counterexample :
    (handleMessage ⟨true, true, []⟩ [] ⟨300, [], []⟩
        ⟨"changeSoundVolume", some (some (.str ""))⟩).1.currentVolume = 0 ∧
    (handleMessage ⟨true, true, []⟩ [] ⟨300, [], []⟩
        ⟨"changeSoundVolume", some (some (.str ""))⟩).2.writes = [0] ∧
    (0 : ℚ) ≠ 300 := by
  refine ⟨by decide, by decide, by norm_num⟩

/-- C4 amended: for every payload value whose JavaScript `Number()`
coercion yields NaN or a number outside `[0, 600]`, handling a
`changeSoundVolume` message leaves the state (including the current
volume) unchanged, performs no write, no notification and no gain
mutation, and replies with the unchanged current volume.  (Values that
are non-numeric but coerce to an in-range number — such as `""`, `null`
or `true` — are accepted instead.) -/
theorem c4_invalid_rejected (env : Env) (doc : List MediaElement) (st : EngineState)
    (v : JSValue)
    (h : toNumber v = none ∨ ∃ x, toNumber v = some x ∧ (x < 0 ∨ 600 < x)) :
    handleMessage env doc st ⟨"changeSoundVolume", some (some v)⟩ =
      (st, { responses := [st.currentVolume] }) := by
  rw [handle_change env doc st ⟨"changeSoundVolume", some (some v)⟩ rfl]
  rw [show (⟨"changeSoundVolume", some (some v)⟩ : Request).data = some (some v) from rfl]
  rw [setVolume_invalid env doc st v h]
  rfl

/-- C4 witness: the out-of-range numeric value 1000 is rejected and the
prior volume 300 is kept and echoed. -/
theorem c4_witness :
    handleMessage ⟨true, true, []⟩ [] ⟨300, [], []⟩
        ⟨"changeSoundVolume", some (some (.num 1000))⟩ =
      ((⟨300, [], []⟩ : EngineState), { responses := [300] }) :=
  c4_invalid_rejected ⟨true, true, []⟩ [] ⟨300, [], []⟩ (.num 1000)
    (Or.inr ⟨1000, rfl, Or.inr (by norm_num)⟩)

/-- C6 counterexample: with a ready entry whose gain already equals
`level/100` (here gain 1 and level 100, the state of a freshly created
graph at the default volume), calling `applyVolumeToElement` twice
performs zero gain-stage mutations, not exactly one. -/
theorem c6_counterexample :
    ((applyVolumeToElement ⟨true, true, []⟩ ⟨0, "https://example.com/a.mp3", "", true⟩ 100
        ⟨100, [(0, .ready 1)], []⟩).2.2.gainSets ++
      (applyVolumeToElement ⟨true, true, []⟩ ⟨0, "https://example.com/a.mp3", "", true⟩ 100
        (applyVolumeToElement ⟨true, true, []⟩ ⟨0, "https://example.com/a.mp3", "", true⟩ 100
          ⟨100, [(0, .ready 1)], []⟩).2.1).2.2.gainSets).length ≠ 1 := by
  have h1 : mapGet ((⟨100, [(0, .ready 1)], []⟩ : EngineState).gainNodes) 0 =
      some (.ready 1) := by decide
  have ha := apply_ready ⟨true, true, []⟩ ⟨0, "https://example.com/a.mp3", "", true⟩ 100
    ⟨100, [(0, .ready 1)], []⟩ 1 h1
  rw [if_pos (by norm_num : (1 : ℚ) = 100 / 100)] at ha
  rw [ha]
  dsimp only
  rw [ha]
  simp

/-- C6 amended: `applyVolumeToElement` on a ready entry is idempotent in
the level, with at most one gain-stage mutation across two successive
calls: the first call leaves the gain at `level/100` (mutating exactly
when the prior gain differs from `level/100`, and not otherwise), and
the second call observes that gain, mutates nothing, returns the same
result `true`, and leaves the state unchanged. -/
theorem c6_applyGain_idempotent (env : Env) (e : MediaElement) (st : EngineState) (g v : ℚ)
    (h : mapGet st.gainNodes e.id = some (.ready g)) :
    (applyVolumeToElement env e v st).1 = true ∧
    mapGet (applyVolumeToElement env e v st).2.1.gainNodes e.id = some (.ready (v / 100)) ∧
    (g = v / 100 → (applyVolumeToElement env e v st).2.2.gainSets = []) ∧
    (g ≠ v / 100 → (applyVolumeToElement env e v st).2.2.gainSets = [(e.id, v / 100)]) ∧
    applyVolumeToElement env e v (applyVolumeToElement env e v st).2.1 =
      (true, (applyVolumeToElement env e v st).2.1, { applyCalls := [e.id] }) := by
  have ha := apply_ready env e v st g h
  by_cases hg : g = v / 100
  · rw [if_pos hg] at ha
    refine ⟨by rw [ha], ?_, fun _ => by rw [ha], fun hc => absurd hg hc, ?_⟩
    · rw [ha]
      dsimp only
      rw [← hg]
      exact h
    · rw [ha]
      dsimp only
      exact ha
  · rw [if_neg hg] at ha
    refine ⟨by rw [ha], ?_, fun hc => absurd hc hg, fun _ => by rw [ha], ?_⟩
    · rw [ha]
      dsimp only
      exact mapGet_mapSet_self st.gainNodes e.id (.ready (v / 100))
    · have ha2 := apply_ready env e v
        { st with gainNodes := mapSet st.gainNodes e.id (.ready (v / 100)) } (v / 100)
        (mapGet_mapSet_self st.gainNodes e.id (.ready (v / 100)))
      rw [if_pos rfl] at ha2
      rw [ha]
      dsimp only
      exact ha2

/-- C6 witness: a ready entry at gain 1 driven to level 300 mutates the
gain stage once, to 300/100. -/
theorem c6_witness :
    mapGet ((⟨100, [(0, .ready 1)], []⟩ : EngineState).gainNodes) 0 = some (.ready 1) ∧
    (applyVolumeToElement ⟨true, true, []⟩ ⟨0, "https://example.com/a.mp3", "", true⟩ 300
        ⟨100, [(0, .ready 1)], []⟩).2.2.gainSets = [(0, 300 / 100)] :=
  ⟨by decide,
   (c6_applyGain_idempotent ⟨true, true, []⟩
      ⟨0, "https://example.com/a.mp3", "", true⟩ ⟨100, [(0, .ready 1)], []⟩ 1 300
      (by decide)).2.2.2.1 (by norm_num)⟩

end SoundVolume
